import Mathlib

/-!
Shallow embedding of the consensus and chain-management core of the
blockchain_vaccination_records node, translated from the Python sources:
`blockchain/judgement.py`, `blockchain/helper/block_validator.py`,
`blockchain/full_client.py`, `blockchain/transaction/transaction.py` and
`blockchain/transaction/vaccine_transaction.py`.

Cryptographic primitives (sign / verify / sha256) are external library
adapters in the source and are passed here as explicit function parameters.
Operations of `blockchain/chain.py` that are not shipped in the sources
(only their callers are) are modelled from the specification and carry a
`Modelled from the spec:` doc comment.
-/

/-- Python truthiness of an optional bytes/str field (`if self.signature:`):
`None` and the empty value are falsy, everything else is truthy. -/
def pyTruthyOptStr : Option String → Bool
  | none => false
  | some s => !(s == "")

/-- Python `int(a / b)` on integers: true division followed by `int`, which
truncates toward zero, i.e. `Int.tdiv` (modelled exactly, ignoring float
rounding which is immaterial at the magnitudes of the claims). -/
def pyIntDiv (a b : Int) : Int := a.tdiv b

/-- Python `%` on integers: for a positive modulus the result is non-negative,
which is `Int.emod`. -/
def pyMod (a b : Int) : Int := a.emod b

/-- A single-quote character, as used by Python `repr` of strings. -/
def pyQuote : String := String.singleton (Char.ofNat 39)

/-- Python `repr` of a `str` value on our value domain (no escaping needed). -/
def pyReprStr (s : String) : String := pyQuote ++ s ++ pyQuote

/-- Python `repr` of a `bytes` value, abstracted to its hex text. -/
def pyReprBytes (b : String) : String := "b" ++ pyQuote ++ b ++ pyQuote

/-- Python `repr` of an optional `bytes` value (`None` when absent). -/
def pyReprOptBytes : Option String → String
  | none => "None"
  | some b => pyReprBytes b

/-- Python `repr` of a `bool`. -/
def pyReprBool : Bool → String
  | true => "True"
  | false => "False"

/-- Judgement data (judgement.py): a signed accept/deny vote referencing a
block hash. The signature is optional because the constructor default is
`None`. -/
structure Judgement where
  hash_of_judged_block : String
  accept_block : Bool
  sender_pubkey : String
  signature : Option String
  timestamp : Int
  version : String
deriving DecidableEq

/-- Judgement.__init__: keyword defaults `signature=None`, `timestamp=None`,
`version=None`; `timestamp or int(time())` and `version or CONFIG` replace
falsy arguments (None, 0, the empty string) by the current time and the
configured version. `sender_pubkey` is already in byte form on our domain, so
the RsaKey/str casts of the source are identities. -/
def Judgement.init (cfgVersion : String) (now : Int) (hash_of_judged_block : String)
    (accept_block : Bool) (sender_pubkey : String) (signature : Option String)
    (timestamp : Option Int) (version : Option String) : Judgement :=
  { hash_of_judged_block := hash_of_judged_block
    accept_block := accept_block
    sender_pubkey := sender_pubkey
    signature := signature
    timestamp :=
      match timestamp with
      | none => now
      | some t => if t = 0 then now else t
    version :=
      match version with
      | none => cfgVersion
      | some v => if v == "" then cfgVersion else v }

/-- Judgement._get_data_for_hashing: `str` of a dict literal whose insertion
order is judged_block, accept_block, sender_pubkey, timestamp, version. -/
def Judgement.getDataForHashing (j : Judgement) : String :=
  "\x7b" ++ pyQuote ++ "judged_block" ++ pyQuote ++ ": " ++ pyReprStr j.hash_of_judged_block ++
  ", " ++ pyQuote ++ "accept_block" ++ pyQuote ++ ": " ++ pyReprBool j.accept_block ++
  ", " ++ pyQuote ++ "sender_pubkey" ++ pyQuote ++ ": " ++ pyReprBytes j.sender_pubkey ++
  ", " ++ pyQuote ++ "timestamp" ++ pyQuote ++ ": " ++ toString j.timestamp ++
  ", " ++ pyQuote ++ "version" ++ pyQuote ++ ": " ++ pyReprStr j.version ++ "\x7d"

/-- Judgement.sign(private_key): when the signature field is truthy the call
only logs and returns `None` (modelled as the unchanged judgement paired with
`none`); otherwise it stores a signature over `_get_data_for_hashing` and
returns `self` (the signed judgement paired with `some` of itself). The
signing primitive is the crypto adapter `signfn`. -/
def Judgement.sign (signfn : String → String → String) (privateKey : String)
    (j : Judgement) : Judgement × Option Judgement :=
  if pyTruthyOptStr j.signature then
    (j, none)
  else
    let signed := { j with signature := some (signfn privateKey j.getDataForHashing) }
    (signed, some signed)

/-- Judgement.deny(private_key): the source logs when the judgement already
disapproves the block but, lacking an early return, proceeds in every case:
it assigns `accept_block = False` and recomputes the signature over the
updated hashing data. -/
def Judgement.deny (signfn : String → String → String) (privateKey : String)
    (j : Judgement) : Judgement :=
  let j1 := { j with accept_block := false }
  { j1 with signature := some (signfn privateKey j1.getDataForHashing) }

/-- Judgement._verify_signature: a falsy signature field (absent or empty)
fails immediately; otherwise the crypto adapter `vfn` checks the signature
over the hashing data under the sender public key. -/
def Judgement.verify_signature (vfn : String → String → String → Bool)
    (j : Judgement) : Bool :=
  match j.signature with
  | none => false
  | some s => if s == "" then false else vfn j.getDataForHashing s j.sender_pubkey

/-- Judgement.validate: the source returns `self._verify_signature()` alone;
the admission-membership check is only a TODO comment there. -/
def Judgement.validate (vfn : String → String → String → Bool) (j : Judgement) : Bool :=
  Judgement.verify_signature vfn j

/-- Judgement.__repr__: class name with keyword arguments sorted by attribute
name (accept_block, hash_of_judged_block, sender_pubkey, signature,
timestamp, version). -/
def Judgement.pyRepr (j : Judgement) : String :=
  "Judgement(accept_block=" ++ pyReprBool j.accept_block ++
  ", hash_of_judged_block=" ++ pyReprStr j.hash_of_judged_block ++
  ", sender_pubkey=" ++ pyReprBytes j.sender_pubkey ++
  ", signature=" ++ pyReprOptBytes j.signature ++
  ", timestamp=" ++ toString j.timestamp ++
  ", version=" ++ pyReprStr j.version ++ ")"

/-- Python `eval` of a judgement's `__repr__`: the repr prints every instance
attribute as a keyword argument, so eval calls `Judgement.__init__` with
exactly those values. -/
def Judgement.parseOwnRepr (cfgVersion : String) (now : Int) (j : Judgement) : Judgement :=
  Judgement.init cfgVersion now j.hash_of_judged_block j.accept_block j.sender_pubkey
    j.signature (some j.timestamp) (some j.version)

/-- Judgement.__eq__: both hashes of the reprs are compared, where `hash` is
Python's string hash, taken as an opaque parameter `pyHash`. -/
def Judgement.pyEq (pyHash : String → Int) (a b : Judgement) : Bool :=
  pyHash a.pyRepr == pyHash b.pyRepr

/-- VaccineTransaction (transaction/vaccine_transaction.py): the transaction
variant shipped in the sources. `validation_text` is absent until a failed
`validate()` stores a human-readable reason on the object. -/
structure VaccineTransaction where
  vaccine : String
  sender_pubkey : String
  signature : Option String
  timestamp : Int
  version : String
  validation_text : Option String
deriving DecidableEq

/-- VaccineTransaction.__init__ composed with TransactionBase.__init__:
`kwargs.get` yields `None` for missing keys and `x or default` replaces falsy
values; `sender_pubkey` passes through `cast_to_bytes`, an identity on our
byte-form domain. A freshly constructed object carries no `validation_text`. -/
def VaccineTransaction.init (cfgVersion : String) (now : Int) (vaccine : String)
    (sender_pubkey : String) (signature : Option String) (timestamp : Option Int)
    (version : Option String) : VaccineTransaction :=
  { vaccine := vaccine
    sender_pubkey := sender_pubkey
    signature := signature
    timestamp :=
      match timestamp with
      | none => now
      | some t => if t = 0 then now else t
    version :=
      match version with
      | none => cfgVersion
      | some v => if v == "" then cfgVersion else v
    validation_text := none }

/-- TransactionBase.__repr__ at type VaccineTransaction: keyword arguments
sorted by attribute name (sender_pubkey, signature, timestamp, vaccine,
validation_text when present, version). -/
def VaccineTransaction.pyRepr (t : VaccineTransaction) : String :=
  "VaccineTransaction(sender_pubkey=" ++ pyReprBytes t.sender_pubkey ++
  ", signature=" ++ pyReprOptBytes t.signature ++
  ", timestamp=" ++ toString t.timestamp ++
  ", vaccine=" ++ pyReprStr t.vaccine ++
  (match t.validation_text with
   | none => ""
   | some v => ", validation_text=" ++ pyReprStr v) ++
  ", version=" ++ pyReprStr t.version ++ ")"

/-- VaccineTransaction.validate(admissions, doctors, vaccines): when the
sender is not a registered admission the reason is stored on the object and
`False` is returned; otherwise the result of the signature check. The
`_verify_signature` helper is not shipped in the sources and is taken as the
adapter `verifySig`. The possibly mutated object is returned alongside the
boolean. -/
def VaccineTransaction.validate (verifySig : VaccineTransaction → Bool)
    (admissions _doctors _vaccines : List String) (t : VaccineTransaction) :
    Bool × VaccineTransaction :=
  if t.sender_pubkey ∉ admissions then
    (false, { t with validation_text := some "admission is not registered." })
  else
    (verifySig t, t)

/-- Python `eval` of a vaccine transaction's `__repr__`: eval calls the
constructor with every printed attribute as a keyword argument; the
constructor signature accepts vaccine, sender_pubkey and signature, and
forwards the rest through `**kwargs`, of which only timestamp and version are
read — a printed `validation_text` is silently dropped. -/
def VaccineTransaction.parseOwnRepr (cfgVersion : String) (now : Int)
    (t : VaccineTransaction) : VaccineTransaction :=
  VaccineTransaction.init cfgVersion now t.vaccine t.sender_pubkey t.signature
    (some t.timestamp) (some t.version)

/-- Modelled from the spec: `TransactionBase.__eq__` is not among the shipped
sources (its callers in full_client.py compare transactions with `==`); the
spec states that two transactions are equal iff their deterministic
serialization is equal. -/
def VaccineTransaction.pyEq (a b : VaccineTransaction) : Bool :=
  a.pyRepr == b.pyRepr

/-- Block data (block.py is referenced throughout full_client.py and
block_validator.py): header fields, an ordered transaction list, signature
and content hash, all in the textual byte form used on the wire. -/
structure Block where
  index : Nat
  previous_block : String
  timestamp : Int
  version : String
  public_key : String
  transactions : List VaccineTransaction
  signature : String
  hash : String
deriving DecidableEq

/-- validate_block(block, previous_block) from helper/block_validator.py: the
eight early-return checks in source order. `verifyfn` and `shaHex` are the
crypto adapters; `get_content_for_signing` and `get_content_for_hashing` are
the block serialization methods of block.py, taken as parameters. The
duplicate check compares `len(transactions)` with the size of the set of
transaction reprs. -/
def validate_block (cfgVersion : String) (blockSize : Nat) (now : Int)
    (verifyfn : String → String → String → Bool) (shaHex : String → String)
    (get_content_for_signing get_content_for_hashing : Block → String)
    (block previous_block : Block) : Bool :=
  if block.index ≠ previous_block.index + 1 then false
  else if block.previous_block ≠ previous_block.hash then false
  else if block.version ≠ cfgVersion then false
  else if block.timestamp > now then false
  else if verifyfn (get_content_for_signing block) block.signature block.public_key = false then
    false
  else if blockSize < block.transactions.length then false
  else if (block.transactions.map VaccineTransaction.pyRepr).dedup.length <
      block.transactions.length then false
  else if block.hash ≠ shaHex (get_content_for_hashing block) then false
  else true

/-- FullClient._determine_block_creation_node(timestamp): for every pair of
(leaf hash, admissions) from `chain.get_admissions()` it recomputes the
creation history of length `len(admissions)`, skips leaves whose block was
deleted meanwhile, and selects `creator_history[int(delta / block_time) %
number_of_admissions]` with `delta = timestamp - leaf.timestamp`. The three
chain accessors live in chain.py and are taken as parameters. -/
def determine_block_creation_node (get_admissions : List (String × List String))
    (creationHistory : Nat → String → List String) (findBlock : String → Option Block)
    (blockTime : Int) (timestamp : Int) : List (String × String) :=
  get_admissions.filterMap (fun p =>
    let number_of_admissions := p.2.length
    let creator_history := creationHistory number_of_admissions p.1
    match findBlock p.1 with
    | none => none
    | some last_block =>
      let delta_time := timestamp - last_block.timestamp
      let nth_oldest_block := pyIntDiv delta_time blockTime
      some (p.1, creator_history.getD
        ((pyMod nth_oldest_block (number_of_admissions : Int)).toNat) ""))

/-- FullClient._is_block_created_by_expected_creator(block): with an unknown
parent the creator is assumed correct; otherwise the admissions at the parent
hash determine `n`, the creation history at the parent is recomputed, and the
entry at `int((block.timestamp - parent.timestamp) / block_time) % n` is
compared to the block's public key. -/
def is_block_created_by_expected_creator (findBlock : String → Option Block)
    (regAdmissions : String → List String) (creationHistory : Nat → String → List String)
    (blockTime : Int) (b : Block) : Bool :=
  match findBlock b.previous_block with
  | none => true
  | some parent =>
    let admissions := regAdmissions b.previous_block
    let number_of_admissions := admissions.length
    let creator_history := creationHistory number_of_admissions b.previous_block
    let delta_time := b.timestamp - parent.timestamp
    let nth_oldest_block := pyIntDiv delta_time blockTime
    creator_history.getD
      ((pyMod nth_oldest_block (number_of_admissions : Int)).toNat) "" == b.public_key

/-- Static node environment: peer list, own keypair, configuration, the
crypto adapters, and the two chain.py lookups (registration caches and
creation history) that are pure functions of a block hash. -/
structure Env where
  nodes : List String
  selfPub : String
  selfPriv : String
  blockTime : Int
  blockSize : Nat
  cfgVersion : String
  nowTs : Int
  regAdmissions : String → List String
  creationHistory : Nat → String → List String
  signJ : String → String → String
  verifyB : String → String → String → Bool
  shaHex : String → String
  contentSign : Block → String
  contentHash : Block → String

/-- Mutable node state: the live tree, the dangling set, the dead-branch
roots, the judgement sets and the pending transaction set. -/
structure NodeState where
  liveBlocks : List Block
  danglingBlocks : List Block
  deadBranchRoots : List String
  judgements : List Judgement
  txSet : List VaccineTransaction
deriving DecidableEq

/-- chain.find_block_by_hash: lookup among the live blocks, `None` if absent
or dangling. -/
def NodeState.findBlockByHash (s : NodeState) (h : String) : Option Block :=
  s.liveBlocks.find? (fun b => b.hash == h)

/-- chain.is_block_dangling: membership of the block's hash in the dangling
set. -/
def NodeState.isBlockDangling (s : NodeState) (b : Block) : Bool :=
  s.danglingBlocks.any (fun d => d.hash == b.hash)

/-- chain.is_dead_branch_root: membership of the block's hash among the
dead-branch roots. -/
def NodeState.isDeadBranchRoot (s : NodeState) (b : Block) : Bool :=
  s.deadBranchRoots.contains b.hash

/-- The duplicate test of received_new_block: hash already live, dangling or
a dead-branch root. -/
def NodeState.blockKnown (s : NodeState) (b : Block) : Bool :=
  (s.findBlockByHash b.hash).isSome || s.isBlockDangling b || s.isDeadBranchRoot b

/-- chain.add_dangling_block: queue the block in the dangling set. -/
def NodeState.addDanglingBlock (s : NodeState) (b : Block) : NodeState :=
  { s with danglingBlocks := s.danglingBlocks ++ [b] }

/-- Observable actions of the node controller, in emission order: block
rebroadcast, judgement send, disk persist. -/
inductive Event where
  | sendBlock (node : String) (blockHash : String)
  | sendJudgement (node : String) (j : Judgement)
  | persist (blockHash : String)
deriving DecidableEq

/-- Whether an event is a block rebroadcast. -/
def Event.isBlockSend : Event → Bool
  | .sendBlock _ _ => true
  | _ => false

/-- Modelled from the spec: chain.update_judgements is not among the shipped
sources. Per the spec it returns `true` iff the judgement was previously
unknown, attaching it in that case; the judgement tally and dead-branch
relocation it may additionally trigger are outside every claim over this
development and are not modelled. -/
def update_judgements (s : NodeState) (j : Judgement) : NodeState × Bool :=
  if s.judgements.contains j then (s, false)
  else ({ s with judgements := s.judgements ++ [j] }, true)

/-- Modelled from the spec: chain.add_block is not among the shipped sources.
An unknown parent queues the block in the dangling set; otherwise the block
is inserted under its parent (leaving the dangling set without it) and, in
the spec's basic policy, no blocks are invalidated on insert, so the empty
list is returned. The re-scan of the dangling set is driven by the caller
loop in full_client._process_new_block and is modelled there. -/
def chain_add_block (s : NodeState) (b : Block) : NodeState × List Block :=
  if (s.findBlockByHash b.previous_block).isNone then (s.addDanglingBlock b, [])
  else
    ({ s with
        liveBlocks := s.liveBlocks ++ [b]
        danglingBlocks := s.danglingBlocks.filter (fun d => d.hash != b.hash) }, [])

/-- Modelled from the spec: TransactionSet.discard_multiple removes every
transaction of the block from the pending set, compared by transaction
equality. -/
def discard_multiple (txSet : List VaccineTransaction)
    (txs : List VaccineTransaction) : List VaccineTransaction :=
  txSet.filter (fun t => !(txs.any (fun u => VaccineTransaction.pyEq u t)))

/-- FullClient._create_and_submit_judgement(block, accepted): a node that is
not an admission at the block's parent returns silently; otherwise it
constructs a judgement on the block hash, signs it, records it through
update_judgements and broadcasts it to every peer. -/
def create_and_submit_judgement (env : Env) (s : NodeState) (b : Block)
    (accepted : Bool) : NodeState × List Event :=
  let admissions := env.regAdmissions b.previous_block
  if env.selfPub ∉ admissions then (s, [])
  else
    let j0 := Judgement.init env.cfgVersion env.nowTs b.hash accepted env.selfPub
      none none none
    let j := (Judgement.sign env.signJ env.selfPriv j0).1
    let s1 := (update_judgements s j).1
    (s1, env.nodes.map (fun n => Event.sendJudgement n j))

/-- FullClient._process_new_block over a worklist: processing a block stops
when its parent is absent; a wrong creator or a failed structural validation
yields a deny judgement; otherwise the block is persisted, inserted (the
spec's basic policy invalidates no blocks on insert, so the deny loop over
the returned list is vacuous), an accept judgement is emitted, the block's
transactions leave the pending set, and every dangling block is recursively
re-processed. The fuel bounds the recursion depth through the dangling set;
it is consumed once per cascade level and once per worklist element. -/
def processBlocks (env : Env) : Nat → NodeState → List Block → NodeState × List Event
  | 0, s, _ => (s, [])
  | _ + 1, s, [] => (s, [])
  | fuel + 1, s, b :: rest =>
    let step :=
      match s.findBlockByHash b.previous_block with
      | none => (s, ([] : List Event))
      | some parent =>
        if is_block_created_by_expected_creator s.findBlockByHash env.regAdmissions
            env.creationHistory env.blockTime b = false then
          create_and_submit_judgement env s b false
        else if validate_block env.cfgVersion env.blockSize env.nowTs env.verifyB
            env.shaHex env.contentSign env.contentHash b parent = false then
          create_and_submit_judgement env s b false
        else
          let sA := (chain_add_block s b).1
          let acc := create_and_submit_judgement env sA b true
          let sC := { acc.1 with txSet := discard_multiple acc.1.txSet b.transactions }
          let dangling := processBlocks env fuel sC sC.danglingBlocks
          (dangling.1, Event.persist b.hash :: (acc.2 ++ dangling.2))
    let restStep := processBlocks env fuel step.1 rest
    (restStep.1, step.2 ++ restStep.2)

/-- FullClient._process_new_block(new_block), entered with a single block. -/
def process_new_block (env : Env) (fuel : Nat) (s : NodeState) (b : Block) :
    NodeState × List Event :=
  processBlocks env fuel s [b]

/-- FullClient.received_new_block: a known hash (live, dangling or dead-root)
is ignored; a block with unknown parent is queued dangling (without an early
return); a failed creator check yields a deny judgement and stops; otherwise
the block is rebroadcast to every peer and then processed. -/
def received_new_block (env : Env) (fuel : Nat) (s : NodeState) (b : Block) :
    NodeState × List Event :=
  if s.blockKnown b then (s, [])
  else
    let s1 := if (s.findBlockByHash b.previous_block).isNone then s.addDanglingBlock b else s
    if is_block_created_by_expected_creator s1.findBlockByHash env.regAdmissions
        env.creationHistory env.blockTime b = false then
      create_and_submit_judgement env s1 b false
    else
      let evs := env.nodes.map (fun n => Event.sendBlock n b.hash)
      let proc := process_new_block env fuel s1 b
      (proc.1, evs ++ proc.2)

/-! Concrete instances used by the counterexamples and witnesses. -/

/-- Leaf block of the C1 scenario (timestamp 100, hash L). -/
def cBlkL1 : Block :=
  { index := 0, previous_block := "", timestamp := 100, version := "1",
    public_key := "A", transactions := [], signature := "", hash := "L" }

/-- get_admissions result of the C1 scenario: one leaf with two admissions. -/
def cGetAdm1 : List (String × List String) := [("L", ["A", "B"])]

/-- Creation history of the C1 scenario. -/
def cHist1 : Nat → String → List String := fun _ _ => ["A", "B"]

/-- find_block_by_hash of the C1 scenario. -/
def cFind1 : String → Option Block := fun h => if h == "L" then some cBlkL1 else none

/-- Registration-cache admissions of the C1 scenario. -/
def cReg1 : String → List String := fun _ => ["A", "B"]

/-- A child block of the C1 scenario, created by A four seconds after L. -/
def cBlk1b : Block :=
  { index := 1, previous_block := "L", timestamp := 104, version := "1",
    public_key := "A", transactions := [], signature := "sg", hash := "M" }

/-- A judgement that already denies its block, carrying some old signature. -/
def cJ2 : Judgement :=
  { hash_of_judged_block := "h1", accept_block := false, sender_pubkey := "aa",
    signature := some "00", timestamp := 5, version := "1" }

/-- First transaction of the C3 oversized block. -/
def cTxA : VaccineTransaction :=
  { vaccine := "a", sender_pubkey := "k1", signature := none, timestamp := 1,
    version := "1", validation_text := none }

/-- Second transaction of the C3 oversized block. -/
def cTxB : VaccineTransaction :=
  { vaccine := "b", sender_pubkey := "k1", signature := none, timestamp := 1,
    version := "1", validation_text := none }

/-- Parent block of the C3 scenario. -/
def cP3 : Block :=
  { index := 0, previous_block := "", timestamp := 0, version := "1",
    public_key := "A", transactions := [], signature := "", hash := "P3" }

/-- A block carrying block_size + 1 = 2 transactions (block_size 1). -/
def cB3 : Block :=
  { index := 1, previous_block := "P3", timestamp := 0, version := "1",
    public_key := "A", transactions := [cTxA, cTxB], signature := "sg", hash := "H3" }

/-- Parent block of the C4 scenario. -/
def cP4 : Block :=
  { index := 0, previous_block := "", timestamp := 0, version := "1",
    public_key := "A", transactions := [], signature := "", hash := "P4" }

/-- A block satisfying every rule except that its timestamp is now + 1. -/
def cB4 : Block :=
  { index := 1, previous_block := "P4", timestamp := 101, version := "1",
    public_key := "A", transactions := [], signature := "sg", hash := "H4" }

/-- A block satisfying every rule with its timestamp equal to now. -/
def cB4w : Block :=
  { index := 1, previous_block := "P4", timestamp := 100, version := "1",
    public_key := "A", transactions := [], signature := "sg", hash := "H4" }

/-- A judgement whose sender is no admission but whose signature verifies. -/
def cJ5 : Judgement :=
  { hash_of_judged_block := "h2", accept_block := true, sender_pubkey := "ee",
    signature := some "SIG", timestamp := 6, version := "1" }

/-- Parent block of the C6 scenario. -/
def cParent6 : Block :=
  { index := 0, previous_block := "", timestamp := 100, version := "1",
    public_key := "A", transactions := [], signature := "", hash := "P" }

/-- A block whose creator B is not the expected creator A at its slot. -/
def cBlock6 : Block :=
  { index := 1, previous_block := "P", timestamp := 100, version := "1",
    public_key := "B", transactions := [], signature := "sg", hash := "X" }

/-- Environment of the C6 scenario: one peer, self is an admission, the
expected creator at slot 0 is A. -/
def cEnv6 : Env :=
  { nodes := ["peer1"], selfPub := "ME", selfPriv := "sk", blockTime := 2,
    blockSize := 3, cfgVersion := "1", nowTs := 100,
    regAdmissions := fun _ => ["ME", "A", "B"],
    creationHistory := fun _ _ => ["A", "ME", "B"],
    signJ := fun _ _ => "SIG", verifyB := fun _ _ _ => true,
    shaHex := fun _ => "X", contentSign := fun _ => "cs", contentHash := fun _ => "chh" }

/-- Node state of the C6 scenario: only the parent is live. -/
def cState6 : NodeState :=
  { liveBlocks := [cParent6], danglingBlocks := [], deadBranchRoots := [],
    judgements := [], txSet := [] }

/-- A block by the expected creator A that fails structural validation
(wrong protocol version). -/
def cBlock6v : Block :=
  { index := 1, previous_block := "P", timestamp := 100, version := "2",
    public_key := "A", transactions := [], signature := "sg", hash := "Y" }

/-- Environment of the C7 scenario. -/
def cEnv7 : Env :=
  { nodes := ["peer1"], selfPub := "ME", selfPriv := "sk", blockTime := 2,
    blockSize := 3, cfgVersion := "1", nowTs := 100,
    regAdmissions := fun _ => ["ME"],
    creationHistory := fun _ _ => ["ME"],
    signJ := fun _ _ => "SIG", verifyB := fun _ _ _ => true,
    shaHex := fun _ => "X", contentSign := fun _ => "cs", contentHash := fun _ => "chh" }

/-- A block already present in the live tree of the C7 scenario. -/
def cBlock7 : Block :=
  { index := 1, previous_block := "P", timestamp := 100, version := "1",
    public_key := "ME", transactions := [], signature := "sg", hash := "K" }

/-- Node state of the C7 scenario: the received block is already live, and
there is a pending transaction that must stay untouched. -/
def cState7 : NodeState :=
  { liveBlocks := [cBlock7], danglingBlocks := [], deadBranchRoots := [],
    judgements := [], txSet := [cTxA] }

/-- A vaccine transaction on which validate() failed (empty admission set),
so it carries a stored validation_text. -/
def cTx8 : VaccineTransaction :=
  (VaccineTransaction.validate (fun _ => true) [] [] []
    (VaccineTransaction.init "0.0.1" 50 "measles" "ab12" none (some 7) (some "0.0.1"))).2

/-- A judgement with a (truthy) signature, for the C9 witness. -/
def cJ9s : Judgement :=
  { hash_of_judged_block := "h9", accept_block := true, sender_pubkey := "aa",
    signature := some "OLD", timestamp := 9, version := "1" }

/-- A judgement without signature, for the C9 and C10 witnesses. -/
def cJ9u : Judgement :=
  { hash_of_judged_block := "h9", accept_block := true, sender_pubkey := "aa",
    signature := none, timestamp := 9, version := "1" }

/-- A signed judgement for the C10 witness. -/
def cJ10s : Judgement :=
  { hash_of_judged_block := "hX", accept_block := true, sender_pubkey := "bb",
    signature := some "S10", timestamp := 4, version := "1" }

/-! Helper lemmas shared by the claim theorems. -/

/-- A list whose dedup is at least as long is duplicate-free. -/
theorem nodup_of_dedup_length_ge {l : List String} (h : l.length ≤ l.dedup.length) :
    l.Nodup := by
  have hs := List.dedup_sublist l
  have heq : l.dedup = l := hs.eq_of_length (le_antisymm hs.length_le h)
  rw [← heq]
  exact List.nodup_dedup l

/-- Characterization of validate_block: it returns true exactly when all
eight structural checks of block_validator.py hold. -/
theorem validate_block_true_iff (cfgVersion : String) (blockSize : Nat) (now : Int)
    (verifyfn : String → String → String → Bool) (shaHex : String → String)
    (cs ch : Block → String) (block previous_block : Block) :
    validate_block cfgVersion blockSize now verifyfn shaHex cs ch block previous_block
        = true ↔
      (block.index = previous_block.index + 1 ∧
       block.previous_block = previous_block.hash ∧
       block.version = cfgVersion ∧
       block.timestamp ≤ now ∧
       verifyfn (cs block) block.signature block.public_key = true ∧
       block.transactions.length ≤ blockSize ∧
       (block.transactions.map VaccineTransaction.pyRepr).Nodup ∧
       block.hash = shaHex (ch block)) := by
  unfold validate_block
  split_ifs with h1 h2 h3 h4 h5 h6 h7 h8
  · simp only [Bool.false_eq_true, false_iff]
    rintro ⟨c1, -⟩; exact h1 c1
  · simp only [Bool.false_eq_true, false_iff]
    rintro ⟨-, c2, -⟩; exact h2 c2
  · simp only [Bool.false_eq_true, false_iff]
    rintro ⟨-, -, c3, -⟩; exact h3 c3
  · simp only [Bool.false_eq_true, false_iff]
    rintro ⟨-, -, -, c4, -⟩; omega
  · simp only [Bool.false_eq_true, false_iff]
    rintro ⟨-, -, -, -, c5, -⟩
    rw [h5] at c5
    exact Bool.false_ne_true c5
  · simp only [Bool.false_eq_true, false_iff]
    rintro ⟨-, -, -, -, -, c6, -⟩; omega
  · simp only [Bool.false_eq_true, false_iff]
    rintro ⟨-, -, -, -, -, -, c7, -⟩
    rw [List.dedup_eq_self.mpr c7, List.length_map] at h7
    omega
  · simp only [Bool.false_eq_true, false_iff]
    rintro ⟨-, -, -, -, -, -, -, c8⟩; exact h8 c8
  · simp only [true_iff]
    refine ⟨by omega, by tauto, by tauto, by omega, ?_, by omega, ?_, by tauto⟩
    · cases hb : verifyfn (cs block) block.signature block.public_key
      · exact absurd hb h5
      · rfl
    · refine nodup_of_dedup_length_ge ?_
      rw [List.length_map]
      omega

/-- Processing an empty worklist changes nothing, for any fuel. -/
theorem processBlocks_nil (env : Env) (fuel : Nat) (s : NodeState) :
    processBlocks env fuel s [] = (s, []) := by
  cases fuel <;> rfl

/-- Every event emitted by _create_and_submit_judgement is a judgement send,
never a block rebroadcast. -/
theorem create_and_submit_no_blockSend (env : Env) (s : NodeState) (b : Block)
    (accepted : Bool) :
    ∀ e ∈ (create_and_submit_judgement env s b accepted).2, e.isBlockSend = false := by
  intro e he
  simp only [create_and_submit_judgement] at he
  split_ifs at he with h
  · simp only [List.mem_map] at he
    obtain ⟨n, -, rfl⟩ := he
    rfl
  · simp at he

/-! The claim theorems. -/

/-- C2: code-bug exhibit. Calling deny on a judgement that already denies is
not rejected: instead of leaving the judgement unchanged, the source (which
only logs in that case, lacking an early return) recomputes the signature,
so the judgement's state changes. -/
theorem claim_C2_bug :
    cJ2.accept_block = false ∧
    Judgement.deny (fun _ _ => "NEWSIG") "priv" cJ2 ≠ cJ2 ∧
    (Judgement.deny (fun _ _ => "NEWSIG") "priv" cJ2).signature = some "NEWSIG" := by
  decide

/-- C5: code-bug exhibit. Judgement.validate returns true for a judgement
whose signature verifies even though its sender is not an admission of any
set: the admission-membership condition of the claim is only a TODO comment
in the source and is never checked. -/
theorem claim_C5_bug :
    Judgement.validate (fun _ _ _ => true) cJ5 = true ∧
    cJ5.sender_pubkey ∉ (["aa", "bb"] : List String) := by
  decide

/-- C9: sign on a judgement whose signature field is truthy changes nothing
and returns None; sign on an unsigned judgement stores the signature and
returns the signed judgement itself; hence, whenever the produced signature
is non-empty, a second sign leaves the state fixed while the return value
differs (none versus some). -/
theorem claim_C9 (sf : String → String → String) (pk : String) (j : Judgement) :
    (pyTruthyOptStr j.signature = true → Judgement.sign sf pk j = (j, none))
    ∧ (pyTruthyOptStr j.signature = false →
        Judgement.sign sf pk j =
          ({ j with signature := some (sf pk j.getDataForHashing) },
            some { j with signature := some (sf pk j.getDataForHashing) }))
    ∧ (pyTruthyOptStr j.signature = false → sf pk j.getDataForHashing ≠ "" →
        Judgement.sign sf pk (Judgement.sign sf pk j).1 = ((Judgement.sign sf pk j).1, none)
          ∧ (Judgement.sign sf pk j).2 ≠ none) := by
  refine ⟨?_, ?_, ?_⟩
  · intro h
    simp [Judgement.sign, h]
  · intro h
    simp [Judgement.sign, h]
  · intro h hne
    have h1 : (Judgement.sign sf pk j).1 =
        { j with signature := some (sf pk j.getDataForHashing) } := by
      simp [Judgement.sign, h]
    constructor
    · rw [h1]
      simp [Judgement.sign, pyTruthyOptStr, hne]
    · simp [Judgement.sign, h]

/-- C9 witness: the theorem applied to a concrete signed judgement and a
concrete unsigned judgement. -/
theorem claim_C9_witness :
    Judgement.sign (fun _ _ => "NS") "pk" cJ9s = (cJ9s, none) ∧
    Judgement.sign (fun _ _ => "NS") "pk" cJ9u =
      ({ cJ9u with signature := some "NS" }, some { cJ9u with signature := some "NS" }) ∧
    (Judgement.sign (fun _ _ => "NS") "pk"
          (Judgement.sign (fun _ _ => "NS") "pk" cJ9u).1 =
        ((Judgement.sign (fun _ _ => "NS") "pk" cJ9u).1, none)
      ∧ (Judgement.sign (fun _ _ => "NS") "pk" cJ9u).2 ≠ none) :=
  ⟨(claim_C9 (fun _ _ => "NS") "pk" cJ9s).1 (by decide),
   (claim_C9 (fun _ _ => "NS") "pk" cJ9u).2.1 (by decide),
   (claim_C9 (fun _ _ => "NS") "pk" cJ9u).2.2 (by decide) (by decide)⟩

/-- C10: a judgement without signature validates to false (no exception: the
falsy-signature branch returns before the verification), and validate can
only return true when a non-empty signature is present that verifies over
the hashing data under the sender public key. -/
theorem claim_C10 (vfn : String → String → String → Bool) (j : Judgement) :
    (j.signature = none → Judgement.validate vfn j = false)
    ∧ (Judgement.validate vfn j = true →
        ∃ s, j.signature = some s ∧ s ≠ "" ∧
          vfn j.getDataForHashing s j.sender_pubkey = true) := by
  constructor
  · intro h
    simp [Judgement.validate, Judgement.verify_signature, h]
  · intro h
    unfold Judgement.validate Judgement.verify_signature at h
    rcases hs : j.signature with - | s
    · rw [hs] at h
      simp at h
    · rw [hs] at h
      by_cases he : s = ""
      · subst he
        simp at h
      · simp only [beq_iff_eq, he, if_false] at h
        exact ⟨s, rfl, he, h⟩

/-- C10 witness: the theorem applied to a concrete unsigned judgement and a
concrete signed judgement. -/
theorem claim_C10_witness :
    Judgement.validate (fun _ _ _ => true) cJ9u = false ∧
    (∃ s, cJ10s.signature = some s ∧ s ≠ "" ∧
      (fun _ _ _ => true) cJ10s.getDataForHashing s cJ10s.sender_pubkey = true) :=
  ⟨(claim_C10 (fun _ _ _ => true) cJ9u).1 rfl,
   (claim_C10 (fun _ _ _ => true) cJ10s).2 (by decide)⟩

/-- C3: validate_block returns true exactly when all structural rules hold —
index increment, parent reference, protocol version, no future timestamp,
signature verification, transaction count within block_size, no duplicate
transaction by serialized form, and matching recomputed hash — so it returns
false whenever any of them fails; moreover a block carrying block_size + 1
transactions is always rejected. -/
theorem claim_C3 (cfgVersion : String) (blockSize : Nat) (now : Int)
    (verifyfn : String → String → String → Bool) (shaHex : String → String)
    (cs ch : Block → String) (block previous_block : Block) :
    (validate_block cfgVersion blockSize now verifyfn shaHex cs ch block previous_block
        = true ↔
      (block.index = previous_block.index + 1 ∧
       block.previous_block = previous_block.hash ∧
       block.version = cfgVersion ∧
       block.timestamp ≤ now ∧
       verifyfn (cs block) block.signature block.public_key = true ∧
       block.transactions.length ≤ blockSize ∧
       (block.transactions.map VaccineTransaction.pyRepr).Nodup ∧
       block.hash = shaHex (ch block)))
    ∧ (block.transactions.length = blockSize + 1 →
        validate_block cfgVersion blockSize now verifyfn shaHex cs ch block previous_block
          = false) := by
  constructor
  · exact validate_block_true_iff cfgVersion blockSize now verifyfn shaHex cs ch
      block previous_block
  · intro hlen
    cases hv : validate_block cfgVersion blockSize now verifyfn shaHex cs ch
        block previous_block
    · rfl
    · have hle := ((validate_block_true_iff cfgVersion blockSize now verifyfn shaHex cs ch
        block previous_block).mp hv).2.2.2.2.2.1
      omega

/-- C3 witness: a concrete block with block_size + 1 = 2 transactions is
rejected by validate_block. -/
theorem claim_C3_witness :
    validate_block "1" 1 10 (fun _ _ _ => true) (fun _ => "H3") (fun _ => "cs")
      (fun _ => "ch") cB3 cP3 = false :=
  (claim_C3 "1" 1 10 (fun _ _ _ => true) (fun _ => "H3") (fun _ => "cs")
    (fun _ => "ch") cB3 cP3).2 (by decide)

/-- C4 counterexample: a block dated now + 1, well within a 2-second skew, is
rejected by validate_block, although every other rule passes (the same block
is accepted once the clock reaches its timestamp): the source allows no skew
at all, contradicting the claim that blocks within now + skew pass. -/
theorem claim_C4_counterexample :
    cB4.timestamp = 100 + 1 ∧ cB4.timestamp ≤ 100 + 2 ∧
    validate_block "1" 2 100 (fun _ _ _ => true) (fun _ => "H4") (fun _ => "cs")
      (fun _ => "ch") cB4 cP4 = false ∧
    validate_block "1" 2 102 (fun _ _ _ => true) (fun _ => "H4") (fun _ => "cs")
      (fun _ => "ch") cB4 cP4 = true := by
  decide

/-- C4 as amended: when every rule other than the timestamp rule holds, the
timestamp rule alone decides validation, and it rejects exactly the blocks
dated strictly after the current time — no positive skew is allowed. -/
theorem claim_C4_amended (cfgVersion : String) (blockSize : Nat) (now : Int)
    (verifyfn : String → String → String → Bool) (shaHex : String → String)
    (cs ch : Block → String) (b p : Block)
    (h1 : b.index = p.index + 1) (h2 : b.previous_block = p.hash)
    (h3 : b.version = cfgVersion)
    (h5 : verifyfn (cs b) b.signature b.public_key = true)
    (h6 : b.transactions.length ≤ blockSize)
    (h7 : (b.transactions.map VaccineTransaction.pyRepr).Nodup)
    (h8 : b.hash = shaHex (ch b)) :
    validate_block cfgVersion blockSize now verifyfn shaHex cs ch b p = true ↔
      b.timestamp ≤ now := by
  rw [validate_block_true_iff]
  constructor
  · rintro ⟨-, -, -, ht, -⟩
    exact ht
  · intro ht
    exact ⟨h1, h2, h3, ht, h5, h6, h7, h8⟩

/-- C4 witness: the amended theorem applied to a concrete block dated exactly
now, which passes validation. -/
theorem claim_C4_witness :
    validate_block "1" 2 100 (fun _ _ _ => true) (fun _ => "H4") (fun _ => "cs")
      (fun _ => "ch") cB4w cP4 = true :=
  (claim_C4_amended "1" 2 100 (fun _ _ _ => true) (fun _ => "H4") (fun _ => "cs")
    (fun _ => "ch") cB4w cP4 (by decide) (by decide) (by decide) (by decide)
    (by decide) (by decide) (by decide)).mpr (by decide)

/-- C1 counterexample: with block_time 2, a leaf L stamped 100, history
[A, B] and the scheduler asked at t = 99 (one second of clock skew), the
claim's floor formula floor((t - 100)/2) mod 2 = 1 picks B, but the code's
int() truncation toward zero picks index 0, i.e. A: the scheduler's output is
[(L, A)] and the claimed selection (L, B) is not produced. -/
theorem claim_C1_counterexample :
    determine_block_creation_node cGetAdm1 cHist1 cFind1 2 99 = [("L", "A")] ∧
    (["A", "B"] : List String).getD ((Int.fdiv ((99 : Int) - 100) 2).emod 2).toNat "" = "B" ∧
    ("L", (["A", "B"] : List String).getD ((Int.fdiv ((99 : Int) - 100) 2).emod 2).toNat "")
      ∉ determine_block_creation_node cGetAdm1 cHist1 cFind1 2 99 := by
  decide

/-- C1 as amended: for every leaf with admission set of size n and creation
history of length n, the scheduler selects H[q mod n] where q is
(t - leaf.timestamp) / block_time computed with Python int() truncation
toward zero (which agrees with floor exactly when t is not before the leaf's
timestamp); and the creator check on a block with present parent passes iff
its public key equals H[q mod n] with q truncated likewise and H recomputed
at the parent. -/
theorem claim_C1_amended (get_admissions : List (String × List String))
    (creationHistory : Nat → String → List String) (findBlock : String → Option Block)
    (regAdmissions : String → List String) (blockTime t : Int) (h : String)
    (adm : List String) (L : Block)
    (hmem : (h, adm) ∈ get_admissions) (_hn : 0 < adm.length)
    (_hlen : (creationHistory adm.length h).length = adm.length)
    (hL : findBlock h = some L) :
    ((h, (creationHistory adm.length h).getD
        ((pyMod (pyIntDiv (t - L.timestamp) blockTime) (adm.length : Int)).toNat) "")
      ∈ determine_block_creation_node get_admissions creationHistory findBlock blockTime t)
    ∧ ∀ (b parent : Block), findBlock b.previous_block = some parent →
        (is_block_created_by_expected_creator findBlock regAdmissions creationHistory
            blockTime b = true ↔
          (creationHistory (regAdmissions b.previous_block).length b.previous_block).getD
            ((pyMod (pyIntDiv (b.timestamp - parent.timestamp) blockTime)
              ((regAdmissions b.previous_block).length : Int)).toNat) "" = b.public_key) := by
  constructor
  · refine List.mem_filterMap.mpr ⟨(h, adm), hmem, ?_⟩
    simp [hL]
  · intro b parent hb
    unfold is_block_created_by_expected_creator
    rw [hb]
    simp [beq_iff_eq]

/-- C1 witness: the amended theorem applied to the concrete scenario, at
t = 150 (slot 25, even, so index 1 selects B) and to a concrete child block
created by A four seconds after the leaf (slot 2, index 0, A as expected). -/
theorem claim_C1_witness :
    (("L", (cHist1 (["A", "B"] : List String).length "L").getD
        ((pyMod (pyIntDiv ((150 : Int) - cBlkL1.timestamp) 2)
          (((["A", "B"] : List String).length : Int))).toNat) "")
      ∈ determine_block_creation_node cGetAdm1 cHist1 cFind1 2 150)
    ∧ (is_block_created_by_expected_creator cFind1 cReg1 cHist1 2 cBlk1b = true ↔
        (cHist1 (cReg1 cBlk1b.previous_block).length cBlk1b.previous_block).getD
          ((pyMod (pyIntDiv (cBlk1b.timestamp - cBlkL1.timestamp) 2)
            ((cReg1 cBlk1b.previous_block).length : Int)).toNat) "" = cBlk1b.public_key) :=
  ⟨(claim_C1_amended cGetAdm1 cHist1 cFind1 cReg1 2 150 "L" ["A", "B"] cBlkL1
      (by decide) (by decide) (by decide) (by decide)).1,
   (claim_C1_amended cGetAdm1 cHist1 cFind1 cReg1 2 150 "L" ["A", "B"] cBlkL1
      (by decide) (by decide) (by decide) (by decide)).2 cBlk1b cBlkL1 (by decide)⟩

/-- C8 counterexample: a vaccine transaction on which a failed validate()
stored its reason does not round-trip — its repr prints validation_text, but
eval of that repr calls the constructor, whose **kwargs silently drop the
attribute, so the reconstructed object serializes differently and is not
equal to the original. -/
theorem claim_C8_counterexample :
    cTx8.validation_text = some "admission is not registered." ∧
    VaccineTransaction.pyEq (VaccineTransaction.parseOwnRepr "0.0.1" 50 cTx8) cTx8
      = false := by
  decide

/-- C8 as amended: transaction equality holds iff the deterministic
serializations are equal (the spec-modelled __eq__), and parse(serialize(x))
equals x for every transaction that carries no stored validation_text (and
whose timestamp and version are truthy, the constructor's falsy-default
normalization), as well as for every judgement with truthy timestamp and
version, also under the judgement's hash-of-repr equality. -/
theorem claim_C8_amended :
    (∀ x y : VaccineTransaction,
      VaccineTransaction.pyEq x y = true ↔ x.pyRepr = y.pyRepr)
    ∧ (∀ (cfg : String) (now : Int) (t : VaccineTransaction),
        t.validation_text = none → t.timestamp ≠ 0 → t.version ≠ "" →
        VaccineTransaction.parseOwnRepr cfg now t = t)
    ∧ (∀ (cfg : String) (now : Int) (j : Judgement) (pyHash : String → Int),
        j.timestamp ≠ 0 → j.version ≠ "" →
        Judgement.parseOwnRepr cfg now j = j ∧
          Judgement.pyEq pyHash (Judgement.parseOwnRepr cfg now j) j = true) := by
  refine ⟨?_, ?_, ?_⟩
  · intro x y
    simp [VaccineTransaction.pyEq]
  · intro cfg now t hvt hts hv
    cases t
    unfold VaccineTransaction.parseOwnRepr VaccineTransaction.init
    simp_all
  · intro cfg now j pyHash hts hv
    have hparse : Judgement.parseOwnRepr cfg now j = j := by
      cases j
      unfold Judgement.parseOwnRepr Judgement.init
      simp_all
    refine ⟨hparse, ?_⟩
    rw [hparse]
    simp [Judgement.pyEq]

/-- C8 witness: the amended theorem applied to concrete transactions without
validation_text and to a concrete judgement. -/
theorem claim_C8_witness :
    (VaccineTransaction.pyEq cTxA cTxB = true ↔ cTxA.pyRepr = cTxB.pyRepr) ∧
    VaccineTransaction.parseOwnRepr "1" 99 cTxA = cTxA ∧
    (Judgement.parseOwnRepr "1" 99 cJ9s = cJ9s ∧
      Judgement.pyEq (fun s => (s.length : Int)) (Judgement.parseOwnRepr "1" 99 cJ9s)
        cJ9s = true) :=
  ⟨claim_C8_amended.1 cTxA cTxB,
   claim_C8_amended.2.1 "1" 99 cTxA (by decide) (by decide) (by decide),
   claim_C8_amended.2.2 "1" 99 cJ9s (fun s => (s.length : Int)) (by decide) (by decide)⟩

/-- C7: a received block whose hash is already known — live, dangling or a
dead-branch root — leaves the whole node state (live tree, dangling set,
dead roots, judgements and pending transaction set) unchanged and emits no
message. -/
theorem claim_C7 (env : Env) (fuel : Nat) (s : NodeState) (b : Block)
    (h : s.blockKnown b = true) :
    received_new_block env fuel s b = (s, []) := by
  simp [received_new_block, h]

/-- C7 witness: receiving a concrete block that is already in the live tree
changes nothing and sends nothing. -/
theorem claim_C7_witness :
    cState7.blockKnown cBlock7 = true ∧
    received_new_block cEnv7 2 cState7 cBlock7 = (cState7, []) :=
  ⟨by decide, claim_C7 cEnv7 2 cState7 cBlock7 (by decide)⟩

/-- C6 counterexample: a fresh block whose creator fails the expected-creator
check is processed (a deny judgement is sent) but never rebroadcast — the
creator verification precedes the rebroadcast in received_new_block, contrary
to the claim that the rebroadcast happens before it. -/
theorem claim_C6_counterexample :
    cState6.blockKnown cBlock6 = false ∧
    (cState6.findBlockByHash cBlock6.previous_block).isSome = true ∧
    (received_new_block cEnv6 3 cState6 cBlock6).2.any Event.isBlockSend = false ∧
    (received_new_block cEnv6 3 cState6 cBlock6).2 ≠ [] := by
  decide

/-- C6 as amended: for a fresh block with present parent, the node verifies
the expected creator first — on failure it emits only the deny judgement and
never a block rebroadcast — and only when the creator check passes does it
rebroadcast the block to every peer before structural validation, so a
structurally invalid block has still been rebroadcast, with all its deny
events after the broadcast events in the trace. -/
theorem claim_C6_amended (env : Env) (fuel : Nat) (s : NodeState) (b parent : Block)
    (hk : s.blockKnown b = false)
    (hp : s.findBlockByHash b.previous_block = some parent) :
    (is_block_created_by_expected_creator s.findBlockByHash env.regAdmissions
        env.creationHistory env.blockTime b = false →
      received_new_block env fuel s b = create_and_submit_judgement env s b false ∧
      ∀ e ∈ (received_new_block env fuel s b).2, e.isBlockSend = false)
    ∧ (is_block_created_by_expected_creator s.findBlockByHash env.regAdmissions
        env.creationHistory env.blockTime b = true →
      validate_block env.cfgVersion env.blockSize env.nowTs env.verifyB env.shaHex
        env.contentSign env.contentHash b parent = false →
      (received_new_block env (fuel + 1) s b).2 =
        env.nodes.map (fun n => Event.sendBlock n b.hash) ++
          (create_and_submit_judgement env s b false).2) := by
  have hns : (s.findBlockByHash b.previous_block).isNone = false := by
    rw [hp]
    rfl
  constructor
  · intro hc
    have hr : received_new_block env fuel s b = create_and_submit_judgement env s b false := by
      simp [received_new_block, hk, hns, hc]
    refine ⟨hr, ?_⟩
    rw [hr]
    exact create_and_submit_no_blockSend env s b false
  · intro hc hv
    simp [received_new_block, hk, hns, hc, process_new_block, processBlocks, hp, hv,
      processBlocks_nil]

/-- C6 witness: the amended theorem applied to the concrete scenario, once to
a wrong-creator block (no rebroadcast, only the deny judgement) and once to a
block by the expected creator that fails structural validation (rebroadcast
first, then the deny judgement). -/
theorem claim_C6_witness :
    (received_new_block cEnv6 4 cState6 cBlock6 =
        create_and_submit_judgement cEnv6 cState6 cBlock6 false ∧
      ∀ e ∈ (received_new_block cEnv6 4 cState6 cBlock6).2, e.isBlockSend = false) ∧
    (received_new_block cEnv6 (4 + 1) cState6 cBlock6v).2 =
      cEnv6.nodes.map (fun n => Event.sendBlock n cBlock6v.hash) ++
        (create_and_submit_judgement cEnv6 cState6 cBlock6v false).2 :=
  ⟨(claim_C6_amended cEnv6 4 cState6 cBlock6 cParent6 (by decide) (by decide)).1
      (by decide),
   (claim_C6_amended cEnv6 4 cState6 cBlock6v cParent6 (by decide) (by decide)).2
      (by decide) (by decide)⟩
